import Mathlib

/-
Shallow embedding of the pearl fatigue-detection backend
(src/backend/Fatigue_calc.py and src/backend/Physio_score.py).

Real-valued quantities (times, scores, metrics) are modelled as rationals.
Python's ambient wall clock (time.time()) is passed explicitly as a `now`
parameter.  Fatigue levels, which are Python strings, become an inductive
type.  Python exceptions become Option results.
-/

namespace Pearl

/-- The fatigue levels emitted by the calculator ("NORMAL", "EARLY FATIGUE",
"HIGH FATIGUE", "CALIBRATING" in the Python source). -/
inductive Level where
  | NORMAL
  | EARLY_FATIGUE
  | HIGH_FATIGUE
  | CALIBRATING
deriving DecidableEq

/-- Confidence tags returned by `_hybrid_decision_with_persistence`
("HIGH" / "MEDIUM" strings in the source). -/
inductive Confidence where
  | HIGH
  | MEDIUM
deriving DecidableEq

/-- The dictionary of physiological scores consumed by
`calculate_fatigue_level` (produced by `PhysioScore.get_physio_scores`). -/
structure PhysioScores where
  perclos : ℚ
  fom : ℚ
  continuousClosureSec : ℚ
  continuousDroopyFaceSec : ℚ
  droopyEyelidsFrequency : ℚ
deriving DecidableEq

/-- Mutable state of `FatigueCalculator` (its `__init__` fields).
`current_level` is written once in `__init__` and never used again; it is
carried for fidelity. -/
structure FatigueState where
  currentLevel : Level
  startupFrames : Nat
  previousAlertsCount : Nat
  alertHistory : List (Level × ℚ)
  levelPersistenceTimer : ℚ
  currentStableLevel : Level
deriving DecidableEq

/-- `FatigueCalculator.__init__`; `now` is the value of `time.time()` at
construction. -/
def initFatigue (now : ℚ) : FatigueState :=
  { currentLevel := Level.NORMAL
    startupFrames := 0
    previousAlertsCount := 0
    alertHistory := []
    levelPersistenceTimer := now
    currentStableLevel := Level.NORMAL }

/-- `_normalize_perclos`. -/
def normalizePerclos (perclos : ℚ) : ℚ := min (perclos / (3/10)) 1

/-- `_normalize_fom`. -/
def normalizeFom (fom : ℚ) : ℚ := min (fom / (2/10)) 1

/-- `_normalize_droopy`. -/
def normalizeDroopy (droopyFreq : ℚ) : ℚ := min (droopyFreq / 1) 1

/-- `_normalize_reaction_time`. -/
def normalizeReactionTime (reactionMs : ℚ) : ℚ :=
  if reactionMs ≤ 250 then 0
  else if reactionMs ≥ 500 then 1
  else (reactionMs - 250) / 250

/-- `_normalize_sleep`. -/
def normalizeSleep (sleepHours : ℚ) : ℚ :=
  if sleepHours ≥ 8 then 0
  else if sleepHours ≥ 7 then 1/10
  else if sleepHours ≥ 6 then 3/10
  else if sleepHours ≥ 5 then 5/10
  else if sleepHours ≥ 4 then 7/10
  else 9/10

/-- `_rule_based_classification`. -/
def ruleBasedClassification (perclos fom eyeClosure droopyEyelids sleep
    reactionMs : ℚ) (alerts : Nat) : Level :=
  if eyeClosure > 10 ∨ perclos > 24/100 ∨ fom > 16/100 ∨
      droopyEyelids > 8/10 ∨ sleep < 2 ∨ reactionMs > 500 ∨ alerts ≥ 3 then
    Level.HIGH_FATIGUE
  else if (15/100 ≤ perclos ∧ perclos ≤ 24/100) ∨ fom > 16/100 ∨
      droopyEyelids > 5/10 ∨ (2 ≤ sleep ∧ sleep < 4) ∨
      ((350 < reactionMs ∧ reactionMs ≤ 500) ∨ alerts ≥ 1) then
    Level.EARLY_FATIGUE
  else if alerts ≥ 4 then Level.HIGH_FATIGUE
  else if alerts ≥ 2 then Level.EARLY_FATIGUE
  else Level.NORMAL

/-- The "proposed level" block at the top of
`_hybrid_decision_with_persistence`. -/
def proposedLevel (equationScore : ℚ) (ruleLevel : Level) : Level :=
  if ruleLevel = Level.HIGH_FATIGUE then Level.HIGH_FATIGUE
  else if ruleLevel = Level.EARLY_FATIGUE then
    (if equationScore > 65/100 then Level.HIGH_FATIGUE else Level.EARLY_FATIGUE)
  else
    (if equationScore > 70/100 then Level.HIGH_FATIGUE
     else if equationScore > 50/100 then Level.EARLY_FATIGUE
     else Level.NORMAL)

/-- The direction-dependent dwell time of the persistence logic. -/
def requiredTime (proposed : Level) : ℚ :=
  if proposed = Level.HIGH_FATIGUE then 5
  else if proposed = Level.EARLY_FATIGUE then 3
  else 10

/-- `_hybrid_decision_with_persistence`; `now` is `time.time()` at the call.
Returns the updated calculator state, the emitted level and the confidence. -/
def hybridDecisionWithPersistence (s : FatigueState) (equationScore : ℚ)
    (ruleLevel : Level) (eyeClosure : ℚ) (now : ℚ) :
    FatigueState × Level × Confidence :=
  let timeSinceLastChange := now - s.levelPersistenceTimer
  let proposed := proposedLevel equationScore ruleLevel
  if eyeClosure > 10 ∨ ruleLevel = Level.HIGH_FATIGUE then
    ({ s with currentStableLevel := proposed, levelPersistenceTimer := now },
     proposed, Confidence.HIGH)
  else if proposed ≠ s.currentStableLevel then
    if timeSinceLastChange ≥ requiredTime proposed then
      ({ s with currentStableLevel := proposed, levelPersistenceTimer := now },
       proposed, Confidence.HIGH)
    else
      (s, s.currentStableLevel, Confidence.MEDIUM)
  else
    ({ s with levelPersistenceTimer := now }, proposed, Confidence.HIGH)

/-- `_update_alert_history` acting on the pair
(`alert_history`, `previous_alerts_count`); `now` is `time.time()`. -/
def updateAlertHistory (history : List (Level × ℚ)) (count : Nat)
    (level : Level) (now : ℚ) : List (Level × ℚ) × Nat :=
  let cooldownOk : Bool :=
    match history.getLast? with
    | none => true
    | some last => decide (now - last.2 > 2)
  if cooldownOk then
    if level ≠ Level.NORMAL then
      let h := history ++ [(level, now)]
      let h2 := h.filter (fun alert => decide (now - alert.2 < 300))
      (h2, h2.length)
    else (history, count)
  else (history, count)

/-- `_update_alert_history` lifted to the calculator state. -/
def updateAlertHistoryState (s : FatigueState) (level : Level) (now : ℚ) :
    FatigueState :=
  let r := updateAlertHistory s.alertHistory s.previousAlertsCount level now
  { s with alertHistory := r.1, previousAlertsCount := r.2 }

/-- STEP 1 of `calculate_fatigue_level`: the weighted equation score, with the
mock auxiliary data hard-coded in the source (reaction 280 ms, voice 0.75,
history 0.70, sleep 5.5 h). -/
def equationScore (ps : PhysioScores) : ℚ :=
  25/100 * normalizePerclos ps.perclos +
  20/100 * normalizeFom ps.fom +
  15/100 * normalizeDroopy ps.droopyEyelidsFrequency +
  15/100 * normalizeReactionTime 280 +
  10/100 * (75/100) +
  10/100 * (70/100) +
  5/100 * normalizeSleep (55/10)

/-- The calibration message f-string of `calculate_fatigue_level`. -/
def calibMsg (framesLeft : Nat) : String :=
  "Calibrating... " ++ toString framesLeft ++ " frames left"

/-- `_get_alert_message`. -/
def getAlertMessage (finalLevel ruleLevel : Level) (_equationScore : ℚ) :
    String :=
  if finalLevel = Level.HIGH_FATIGUE then
    if ruleLevel = Level.HIGH_FATIGUE then "CRITICAL: Immediate safety risk"
    else "HIGH: Sustained fatigue detected"
  else if finalLevel = Level.EARLY_FATIGUE then "MODERATE: Early fatigue signs"
  else "NORMAL: All factors within safe limits"

/-- Python `int()` applied to a rational: truncation toward zero. -/
def pyInt (q : ℚ) : ℤ := if 0 ≤ q then ⌊q⌋ else ⌈q⌉

/-- `calculate_fatigue_level`; `now` is `time.time()` during the call.
Returns the updated state and the `(level, score, message)` triple. -/
def calculateFatigueLevel (s : FatigueState) (ps : PhysioScores) (now : ℚ) :
    FatigueState × Level × ℤ × String :=
  let s1 := { s with startupFrames := s.startupFrames + 1 }
  if s1.startupFrames < 30 then
    (s1, Level.CALIBRATING, 25, calibMsg (30 - s1.startupFrames))
  else
    let sleepHours : ℚ := 55/10
    let reactionTimeMs : ℚ := 280
    let previousAlerts := s1.previousAlertsCount
    let fatigueScore := equationScore ps
    let ruleLevel := ruleBasedClassification ps.perclos ps.fom
      ps.continuousClosureSec ps.droopyEyelidsFrequency sleepHours
      reactionTimeMs previousAlerts
    let hd := hybridDecisionWithPersistence s1 fatigueScore ruleLevel
      ps.continuousClosureSec now
    let s2 := hd.1
    let finalLevel := hd.2.1
    let s3 :=
      if finalLevel ≠ Level.NORMAL ∨ ruleLevel ≠ Level.NORMAL then
        updateAlertHistoryState s2 finalLevel now
      else s2
    (s3, finalLevel, pyInt (fatigueScore * 100), getAlertMessage finalLevel ruleLevel fatigueScore)

/-- State of the calculator after `n` calls on a fresh engine constructed at
time 0, where call `k` (0-based) receives scores `(inputs k).1` at wall-clock
time `(inputs k).2`. -/
def runCalls (inputs : Nat → PhysioScores × ℚ) : Nat → FatigueState
  | 0 => initFatigue 0
  | n + 1 =>
    (calculateFatigueLevel (runCalls inputs n) (inputs n).1 (inputs n).2).1

/-- Full result of the `(n+1)`-th call (0-based index `n`) on a fresh engine. -/
def outputAt (inputs : Nat → PhysioScores × ℚ) (n : Nat) :
    FatigueState × Level × ℤ × String :=
  calculateFatigueLevel (runCalls inputs n) (inputs n).1 (inputs n).2

/-- An all-zero score snapshot (eyes open, no yawns, no droop). -/
def zeroScores : PhysioScores :=
  { perclos := 0, fom := 0, continuousClosureSec := 0,
    continuousDroopyFaceSec := 0, droopyEyelidsFrequency := 0 }

/-- A snapshot whose continuous eye closure (11 s) exceeds the 10 s
emergency threshold. -/
def closureScores : PhysioScores :=
  { perclos := 0, fom := 0, continuousClosureSec := 11,
    continuousDroopyFaceSec := 0, droopyEyelidsFrequency := 0 }

/-- A concrete input stream: sustained over-threshold eye closure, wall clock
frozen at 0. -/
def inputsClosure : Nat → PhysioScores × ℚ := fun _ => (closureScores, 0)

/-
Embedding of PhysioScore (src/backend/Physio_score.py).
-/

/-- Mutable state of `PhysioScore`.  The four deques share the same `maxlen`
(`window_frames`); `frameRate` is the constructor argument. -/
structure PhysioState where
  frameRate : ℤ
  windowFrames : ℕ
  eyeStates : List Bool
  yawnStates : List Bool
  droopyEyelidsStates : List Bool
  droopyFaceStates : List Bool
  consecutiveEyeClosed : ℕ
  consecutiveDroopyFace : ℕ
deriving DecidableEq

/-- `PhysioScore.__init__(frame_rate)`.  `deque(maxlen=m)` raises ValueError
when `m` is negative, so construction fails exactly when
`30 * frame_rate < 0`; otherwise every field is initialised and no check of
`frame_rate` itself is performed. -/
def physioInit (frameRate : ℤ) : Option PhysioState :=
  let windowFrames := 30 * frameRate
  if windowFrames < 0 then none
  else some
    { frameRate := frameRate
      windowFrames := windowFrames.toNat
      eyeStates := []
      yawnStates := []
      droopyEyelidsStates := []
      droopyFaceStates := []
      consecutiveEyeClosed := 0
      consecutiveDroopyFace := 0 }

/-- Appending to a `deque(maxlen=m)`: the oldest entries are dropped so that
at most `m` remain. -/
def dequeAppend (m : ℕ) (xs : List Bool) (x : Bool) : List Bool :=
  let ys := xs ++ [x]
  ys.drop (ys.length - m)

/-- `update_vision_metrics` (the `debug_info` dictionary is print-style
diagnostics and carries no state used elsewhere). -/
def updateVisionMetrics (s : PhysioState) (eyeClosed yawning droopyEyelids
    droopyFace : Bool) : PhysioState :=
  { s with
    eyeStates := dequeAppend s.windowFrames s.eyeStates eyeClosed
    yawnStates := dequeAppend s.windowFrames s.yawnStates yawning
    droopyEyelidsStates :=
      dequeAppend s.windowFrames s.droopyEyelidsStates droopyEyelids
    droopyFaceStates := dequeAppend s.windowFrames s.droopyFaceStates droopyFace
    consecutiveEyeClosed := if eyeClosed then s.consecutiveEyeClosed + 1 else 0
    consecutiveDroopyFace :=
      if droopyFace then s.consecutiveDroopyFace + 1 else 0 }

/-- Apply a list of `update_vision_metrics` calls in order. -/
def runUpdates (s : PhysioState) : List (Bool × Bool × Bool × Bool) → PhysioState
  | [] => s
  | u :: rest =>
    runUpdates (updateVisionMetrics s u.1 u.2.1 u.2.2.1 u.2.2.2) rest

/-- The rising-edge count of `calculate_fom`: the loop body
`if current_yawn and not prev_was_yawn: yawn_events += 1`, with
`prev` the value of `prev_was_yawn` entering the loop (initially `false`). -/
def risingEdges : List Bool → Bool → ℕ
  | [], _ => 0
  | b :: rest, prev => (if b ∧ ¬prev then 1 else 0) + risingEdges rest b

/-- `calculate_fom` as a function of the yawn window and the frame rate. -/
def calculateFom (frameRate : ℤ) (yawnStates : List Bool) : ℚ :=
  if yawnStates.length < 30 then 0
  else
    let yawnEvents : ℚ := risingEdges yawnStates false
    let windowSeconds : ℚ :=
      max ((yawnStates.length : ℚ) / (frameRate : ℚ)) 10
    (yawnEvents / windowSeconds) * 60

/-- `get_continuous_eye_closure`: Python raises ZeroDivisionError when
`frame_rate == 0`, modelled as `none`. -/
def getContinuousEyeClosure (s : PhysioState) : Option ℚ :=
  if s.frameRate = 0 then none
  else some ((s.consecutiveEyeClosed : ℚ) / (s.frameRate : ℚ))

/-
Spec-side definitions used for refinement-style claims.
-/

/-- First-matching-rule evaluator for an ordered decision list, defaulting to
NORMAL.  (Stated from the spec's description of `_rule_based_classification`
as an ordered decision list.) -/
def firstMatch : List (Bool × Level) → Level
  | [] => Level.NORMAL
  | (c, l) :: rest => if c then l else firstMatch rest

/-- The spec's ordered decision list for the rule classifier. -/
def ruleDecisionList (perclos fom eyeClosure droopyEyelids sleep
    reactionMs : ℚ) (alerts : Nat) : List (Bool × Level) :=
  [ (decide (eyeClosure > 10 ∨ perclos > 24/100 ∨ fom > 16/100 ∨
      droopyEyelids > 8/10 ∨ sleep < 2 ∨ reactionMs > 500 ∨ alerts ≥ 3),
     Level.HIGH_FATIGUE),
    (decide ((15/100 ≤ perclos ∧ perclos ≤ 24/100) ∨ fom > 16/100 ∨
      droopyEyelids > 5/10 ∨ (2 ≤ sleep ∧ sleep < 4) ∨
      ((350 < reactionMs ∧ reactionMs ≤ 500) ∨ alerts ≥ 1)),
     Level.EARLY_FATIGUE),
    (decide (alerts ≥ 4), Level.HIGH_FATIGUE),
    (decide (alerts ≥ 2), Level.EARLY_FATIGUE) ]

/-- Fold `_update_alert_history` over a sequence of recorded
`(level, wall-clock time)` calls. -/
def runHistoryFrom (acc : List (Level × ℚ) × Nat) :
    List (Level × ℚ) → List (Level × ℚ) × Nat
  | [] => acc
  | c :: rest => runHistoryFrom (updateAlertHistory acc.1 acc.2 c.1 c.2) rest

/-- `runHistoryFrom` starting from the fresh engine's empty history. -/
def runHistory (calls : List (Level × ℚ)) : List (Level × ℚ) × Nat :=
  runHistoryFrom ([], 0) calls

/-
Helper lemmas.
-/

/-- Continuous eye closure above 10 s forces the rule classifier to
HIGH_FATIGUE (its first rule). -/
lemma rule_high_of_closure (perclos fom eyeClosure droopyEyelids sleep
    reactionMs : ℚ) (alerts : Nat) (h : eyeClosure > 10) :
    ruleBasedClassification perclos fom eyeClosure droopyEyelids sleep
      reactionMs alerts = Level.HIGH_FATIGUE := by
  unfold ruleBasedClassification
  rw [if_pos (Or.inl h)]

/-- The proposed level of a HIGH_FATIGUE rule level is HIGH_FATIGUE. -/
lemma proposedLevel_high (equationScore : ℚ) :
    proposedLevel equationScore Level.HIGH_FATIGUE = Level.HIGH_FATIGUE := by
  simp [proposedLevel]

/-- The emergency-override branch of `_hybrid_decision_with_persistence`. -/
lemma hybrid_override (s : FatigueState) (equationScore : ℚ)
    (ruleLevel : Level) (eyeClosure now : ℚ)
    (h : eyeClosure > 10 ∨ ruleLevel = Level.HIGH_FATIGUE) :
    hybridDecisionWithPersistence s equationScore ruleLevel eyeClosure now =
      ({ s with currentStableLevel := proposedLevel equationScore ruleLevel,
                levelPersistenceTimer := now },
       proposedLevel equationScore ruleLevel, Confidence.HIGH) := by
  unfold hybridDecisionWithPersistence
  rw [if_pos h]

/-- `updateAlertHistoryState` never touches the stable level, the persistence
timer or the startup counter. -/
lemma updateAlertHistoryState_proj (s : FatigueState) (level : Level)
    (now : ℚ) :
    (updateAlertHistoryState s level now).currentStableLevel =
      s.currentStableLevel ∧
    (updateAlertHistoryState s level now).levelPersistenceTimer =
      s.levelPersistenceTimer ∧
    (updateAlertHistoryState s level now).startupFrames = s.startupFrames := by
  simp [updateAlertHistoryState]

/-- Unfolding of `calculate_fatigue_level` on a post-calibration frame. -/
lemma calculateFatigueLevel_postCalib (s : FatigueState) (ps : PhysioScores)
    (now : ℚ) (h : 30 ≤ s.startupFrames + 1) :
    calculateFatigueLevel s ps now =
      (let s1 : FatigueState := { s with startupFrames := s.startupFrames + 1 }
       let ruleLevel := ruleBasedClassification ps.perclos ps.fom
         ps.continuousClosureSec ps.droopyEyelidsFrequency (55/10) 280
         s.previousAlertsCount
       let hd := hybridDecisionWithPersistence s1 (equationScore ps) ruleLevel
         ps.continuousClosureSec now
       let s3 :=
         if hd.2.1 ≠ Level.NORMAL ∨ ruleLevel ≠ Level.NORMAL then
           updateAlertHistoryState hd.1 hd.2.1 now
         else hd.1
       (s3, hd.2.1, pyInt (equationScore ps * 100),
        getAlertMessage hd.2.1 ruleLevel (equationScore ps))) := by
  simp only [calculateFatigueLevel]
  rw [if_neg (by omega)]

/-
C1.
-/

/-- C1: emergency override — on every post-calibration frame where
`continuous_closure_sec > 10.0` or the rule-based level is HIGH FATIGUE, the
emitted level is HIGH FATIGUE on that very frame, `current_stable_level` is
set to the proposed level (HIGH FATIGUE), the persistence timer is reset to
`now`, and the confidence returned by the hybrid decision is HIGH, regardless
of the prior stable level or elapsed time. -/
theorem c1_emergency_override (s : FatigueState) (ps : PhysioScores) (now : ℚ)
    (hcal : 30 ≤ s.startupFrames + 1)
    (hov : ps.continuousClosureSec > 10 ∨
      ruleBasedClassification ps.perclos ps.fom ps.continuousClosureSec
        ps.droopyEyelidsFrequency (55/10) 280 s.previousAlertsCount =
        Level.HIGH_FATIGUE) :
    (calculateFatigueLevel s ps now).2.1 = Level.HIGH_FATIGUE ∧
    (calculateFatigueLevel s ps now).1.currentStableLevel =
      Level.HIGH_FATIGUE ∧
    (calculateFatigueLevel s ps now).1.levelPersistenceTimer = now ∧
    (hybridDecisionWithPersistence
      { s with startupFrames := s.startupFrames + 1 } (equationScore ps)
      (ruleBasedClassification ps.perclos ps.fom ps.continuousClosureSec
        ps.droopyEyelidsFrequency (55/10) 280 s.previousAlertsCount)
      ps.continuousClosureSec now).2.2 = Confidence.HIGH := by
  have hrule : ruleBasedClassification ps.perclos ps.fom
      ps.continuousClosureSec ps.droopyEyelidsFrequency (55/10) 280
      s.previousAlertsCount = Level.HIGH_FATIGUE := by
    rcases hov with h | h
    · exact rule_high_of_closure _ _ _ _ _ _ _ h
    · exact h
  have hhyb := hybrid_override
    { s with startupFrames := s.startupFrames + 1 } (equationScore ps)
    (ruleBasedClassification ps.perclos ps.fom ps.continuousClosureSec
      ps.droopyEyelidsFrequency (55/10) 280 s.previousAlertsCount)
    ps.continuousClosureSec now (Or.inr hrule)
  rw [calculateFatigueLevel_postCalib s ps now hcal]
  simp only [hrule, proposedLevel_high] at hhyb ⊢
  rw [hhyb]
  simp [updateAlertHistoryState]

/-- Witness for C1 at a concrete input: fresh engine after 29 calls,
continuous closure 11 s. -/
theorem c1_emergency_override_witness :
    (calculateFatigueLevel
      { currentLevel := Level.NORMAL, startupFrames := 29,
        previousAlertsCount := 0, alertHistory := [],
        levelPersistenceTimer := 0, currentStableLevel := Level.NORMAL }
      { perclos := 0, fom := 0, continuousClosureSec := 11,
        continuousDroopyFaceSec := 0, droopyEyelidsFrequency := 0 }
      1).2.1 = Level.HIGH_FATIGUE :=
  (c1_emergency_override
    { currentLevel := Level.NORMAL, startupFrames := 29,
      previousAlertsCount := 0, alertHistory := [],
      levelPersistenceTimer := 0, currentStableLevel := Level.NORMAL }
    { perclos := 0, fom := 0, continuousClosureSec := 11,
      continuousDroopyFaceSec := 0, droopyEyelidsFrequency := 0 }
    1 (by norm_num) (Or.inl (by norm_num))).1

/-
C2.
-/

/-- C2: hysteresis — on every frame without emergency override, a proposed
level different from the stable one is accepted (state and timer updated,
confidence HIGH) if and only if the elapsed time since the persistence timer
reached the direction-dependent dwell (5.0 s for HIGH FATIGUE, 3.0 s for
EARLY FATIGUE, 10.0 s for NORMAL); while waiting the output is the stable
level with confidence MEDIUM and the whole state (timer included) is
unchanged; when the proposed level equals the stable one the timer is
refreshed to `now`. -/
theorem c2_hysteresis (s : FatigueState) (score : ℚ) (ruleLevel : Level)
    (eyeClosure now : ℚ)
    (hno : ¬(eyeClosure > 10 ∨ ruleLevel = Level.HIGH_FATIGUE)) :
    (proposedLevel score ruleLevel ≠ s.currentStableLevel →
      ((now - s.levelPersistenceTimer ≥
          requiredTime (proposedLevel score ruleLevel) →
        hybridDecisionWithPersistence s score ruleLevel eyeClosure now =
          ({ s with currentStableLevel := proposedLevel score ruleLevel,
                    levelPersistenceTimer := now },
           proposedLevel score ruleLevel, Confidence.HIGH)) ∧
       (now - s.levelPersistenceTimer <
          requiredTime (proposedLevel score ruleLevel) →
        hybridDecisionWithPersistence s score ruleLevel eyeClosure now =
          (s, s.currentStableLevel, Confidence.MEDIUM)))) ∧
    (proposedLevel score ruleLevel = s.currentStableLevel →
      hybridDecisionWithPersistence s score ruleLevel eyeClosure now =
        ({ s with levelPersistenceTimer := now },
         proposedLevel score ruleLevel, Confidence.HIGH)) ∧
    requiredTime Level.HIGH_FATIGUE = 5 ∧
    requiredTime Level.EARLY_FATIGUE = 3 ∧
    requiredTime Level.NORMAL = 10 := by
  simp only [hybridDecisionWithPersistence, if_neg hno]
  refine ⟨?_, ?_, by simp [requiredTime], by simp [requiredTime],
    by simp [requiredTime]⟩
  · intro hne
    rw [if_pos hne]
    constructor
    · intro hge
      rw [if_pos hge]
    · intro hlt
      rw [if_neg (not_le.mpr hlt)]
  · intro heq
    rw [if_neg (fun h => h heq)]

/-- Witness for C2: stable NORMAL, proposed EARLY FATIGUE after 1 s elapsed
(below the 3 s dwell) keeps the output at NORMAL with confidence MEDIUM. -/
theorem c2_hysteresis_witness :
    hybridDecisionWithPersistence
      { currentLevel := Level.NORMAL, startupFrames := 30,
        previousAlertsCount := 0, alertHistory := [],
        levelPersistenceTimer := 0, currentStableLevel := Level.NORMAL }
      (6/10) Level.NORMAL 0 1 =
      ({ currentLevel := Level.NORMAL, startupFrames := 30,
         previousAlertsCount := 0, alertHistory := [],
         levelPersistenceTimer := 0, currentStableLevel := Level.NORMAL },
       Level.NORMAL, Confidence.MEDIUM) := by
  have hprop : proposedLevel (6/10) Level.NORMAL = Level.EARLY_FATIGUE := by
    simp only [proposedLevel,
      if_neg (by decide : ¬Level.NORMAL = Level.HIGH_FATIGUE),
      if_neg (by decide : ¬Level.NORMAL = Level.EARLY_FATIGUE)]
    norm_num
  have hno : ¬((0 : ℚ) > 10 ∨ Level.NORMAL = Level.HIGH_FATIGUE) := by
    push_neg
    exact ⟨by norm_num, by decide⟩
  exact ((c2_hysteresis
    { currentLevel := Level.NORMAL, startupFrames := 30,
      previousAlertsCount := 0, alertHistory := [],
      levelPersistenceTimer := 0, currentStableLevel := Level.NORMAL }
    (6/10) Level.NORMAL 0 1 hno).1 (by rw [hprop]; decide)).2
    (by rw [hprop]; simp [requiredTime])

/-
C4.
-/

/-- C4: the rule classifier returns the first matching rule of the ordered
decision list: HIGH FATIGUE on any critical threshold, else EARLY FATIGUE on
any early sign, else HIGH FATIGUE when `alerts ≥ 4`, else EARLY FATIGUE when
`alerts ≥ 2`, else NORMAL. -/
theorem c4_rule_classifier_decision_list (perclos fom eyeClosure
    droopyEyelids sleep reactionMs : ℚ) (alerts : Nat) :
    ruleBasedClassification perclos fom eyeClosure droopyEyelids sleep
      reactionMs alerts =
    firstMatch (ruleDecisionList perclos fom eyeClosure droopyEyelids sleep
      reactionMs alerts) := by
  simp only [ruleBasedClassification, ruleDecisionList, firstMatch,
    decide_eq_true_eq]

/-
C5.
-/

/-- C5: the equation score is the stated weighted sum of clamped-normalised
sub-scores (with the source's mock auxiliary inputs: reaction 280 ms giving
ramp value 30/250, voice 0.75, history 0.70, sleep 5.5 h giving step value
0.5), and for non-negative metric values it always lies in [0, 1]. -/
theorem c5_equation_score (ps : PhysioScores) (hp : 0 ≤ ps.perclos)
    (hf : 0 ≤ ps.fom) (hd : 0 ≤ ps.droopyEyelidsFrequency) :
    equationScore ps =
      0.25 * min (ps.perclos / 0.3) 1 + 0.20 * min (ps.fom / 0.2) 1 +
      0.15 * min (ps.droopyEyelidsFrequency / 1.0) 1 +
      0.15 * ((280 - 250) / 250 : ℚ) + 0.10 * 0.75 + 0.10 * 0.70 +
      0.05 * 0.5 ∧
    0 ≤ equationScore ps ∧ equationScore ps ≤ 1 := by
  have ha0 : (0 : ℚ) ≤ min (ps.perclos / 0.3) 1 :=
    le_min (by positivity) zero_le_one
  have hb0 : (0 : ℚ) ≤ min (ps.fom / 0.2) 1 :=
    le_min (by positivity) zero_le_one
  have hc0 : (0 : ℚ) ≤ min (ps.droopyEyelidsFrequency / 1.0) 1 :=
    le_min (by positivity) zero_le_one
  have ha1 : min (ps.perclos / 0.3) 1 ≤ (1 : ℚ) := min_le_right _ _
  have hb1 : min (ps.fom / 0.2) 1 ≤ (1 : ℚ) := min_le_right _ _
  have hc1 : min (ps.droopyEyelidsFrequency / 1.0) 1 ≤ (1 : ℚ) :=
    min_le_right _ _
  have hval : equationScore ps =
      0.25 * min (ps.perclos / 0.3) 1 + 0.20 * min (ps.fom / 0.2) 1 +
      0.15 * min (ps.droopyEyelidsFrequency / 1.0) 1 +
      0.15 * ((280 - 250) / 250 : ℚ) + 0.10 * 0.75 + 0.10 * 0.70 +
      0.05 * 0.5 := by
    simp only [equationScore, normalizePerclos, normalizeFom, normalizeDroopy,
      normalizeReactionTime, normalizeSleep]
    norm_num
  refine ⟨hval, ?_, ?_⟩ <;> rw [hval]
  · linarith
  · linarith

/-- Witness for C5 at the all-zero snapshot: the score is 47/250 = 0.188. -/
theorem c5_equation_score_witness :
    equationScore zeroScores =
      0.25 * min ((zeroScores.perclos : ℚ) / 0.3) 1 +
      0.20 * min ((zeroScores.fom : ℚ) / 0.2) 1 +
      0.15 * min ((zeroScores.droopyEyelidsFrequency : ℚ) / 1.0) 1 +
      0.15 * ((280 - 250) / 250 : ℚ) + 0.10 * 0.75 + 0.10 * 0.70 +
      0.05 * 0.5 ∧
    0 ≤ equationScore zeroScores ∧ equationScore zeroScores ≤ 1 :=
  c5_equation_score zeroScores (by norm_num [zeroScores])
    (by norm_num [zeroScores]) (by norm_num [zeroScores])

/-
C3.
-/

/-- The proposed level is never CALIBRATING. -/
lemma proposedLevel_ne_calibrating (score : ℚ) (ruleLevel : Level) :
    proposedLevel score ruleLevel ≠ Level.CALIBRATING := by
  unfold proposedLevel
  split_ifs <;> decide

/-- The hybrid decision never emits CALIBRATING when the stable level is not
CALIBRATING. -/
lemma hybrid_level_ne_calibrating (s : FatigueState) (score : ℚ)
    (ruleLevel : Level) (eyeClosure now : ℚ)
    (h : s.currentStableLevel ≠ Level.CALIBRATING) :
    (hybridDecisionWithPersistence s score ruleLevel eyeClosure now).2.1 ≠
      Level.CALIBRATING := by
  simp only [hybridDecisionWithPersistence]
  split_ifs <;>
    first
      | exact proposedLevel_ne_calibrating score ruleLevel
      | exact h

/-- A calibration-phase call only increments the startup counter and returns
the CALIBRATING triple. -/
lemma calib_step (s : FatigueState) (ps : PhysioScores) (now : ℚ) (n : Nat)
    (hs : s.startupFrames = n) (h : n + 1 < 30) :
    calculateFatigueLevel s ps now =
      ({ s with startupFrames := n + 1 }, Level.CALIBRATING, 25,
       calibMsg (30 - (n + 1))) := by
  subst hs
  simp only [calculateFatigueLevel]
  rw [if_pos (by exact h : s.startupFrames + 1 < 30)]

/-- During calibration (the first 29 calls) the only state change is the
startup counter. -/
lemma runCalls_calib (inputs : Nat → PhysioScores × ℚ) :
    ∀ k, k ≤ 29 →
      runCalls inputs k = { initFatigue 0 with startupFrames := k } := by
  intro k
  induction k with
  | zero => intro _; rfl
  | succ n ih =>
    intro hk
    rw [runCalls, ih (by omega), calib_step _ _ _ n rfl (by omega)]

/-- C3 (amended): on a fresh engine the first 29 calls return CALIBRATING
(score 25) with the strictly decreasing frames-left counts 29, 28, ..., 1 in
the message and no other state change, and the 30th call already runs full
classification (its level is never CALIBRATING). -/
theorem c3_calibration (inputs : Nat → PhysioScores × ℚ) :
    (∀ k, k < 29 → outputAt inputs k =
      ({ initFatigue 0 with startupFrames := k + 1 }, Level.CALIBRATING, 25,
       calibMsg (29 - k))) ∧
    (∀ j k : Nat, j < k → k < 29 → 29 - k < 29 - j) ∧
    (outputAt inputs 29).2.1 ≠ Level.CALIBRATING := by
  refine ⟨?_, by omega, ?_⟩
  · intro k hk
    rw [outputAt, runCalls_calib inputs k (by omega),
      calib_step _ _ _ k rfl (by omega),
      show 30 - (k + 1) = 29 - k from by omega]
  · rw [outputAt, runCalls_calib inputs 29 (by omega),
      calculateFatigueLevel_postCalib _ _ _ (by norm_num)]
    exact hybrid_level_ne_calibrating _ _ _ _ _ (by decide)

/-- Witness for C3 at concrete inputs: the first call returns CALIBRATING
with 29 frames left. -/
theorem c3_calibration_witness :
    outputAt inputsClosure 0 =
      ({ initFatigue 0 with startupFrames := 1 }, Level.CALIBRATING, 25,
       calibMsg 29) :=
  (c3_calibration inputsClosure).1 0 (by omega)

/-- Counterexample to C3 as stated: with continuous closure at 11 s on every
frame, the 30th call on a fresh engine already returns HIGH FATIGUE, not
CALIBRATING — calibration lasts 29 calls, not 30. -/
theorem c3_calibration_counterexample :
    (outputAt inputsClosure 29).2.1 = Level.HIGH_FATIGUE ∧
    Level.HIGH_FATIGUE ≠ Level.CALIBRATING := by
  refine ⟨?_, by decide⟩
  rw [outputAt, runCalls_calib inputsClosure 29 (by omega),
    calculateFatigueLevel_postCalib _ _ _ (by norm_num)]
  have hrule : ruleBasedClassification (inputsClosure 29).1.perclos
      (inputsClosure 29).1.fom (inputsClosure 29).1.continuousClosureSec
      (inputsClosure 29).1.droopyEyelidsFrequency (55/10) 280
      ({ initFatigue 0 with startupFrames := 29 }
        : FatigueState).previousAlertsCount = Level.HIGH_FATIGUE :=
    rule_high_of_closure _ _ _ _ _ _ _
      (by norm_num [inputsClosure, closureScores])
  simp only [hrule, hybrid_override _ _ _ _ _ (Or.inr rfl),
    proposedLevel_high]

/-
C9.
-/

/-- The equation score at the all-zero snapshot. -/
lemma equationScore_zero : equationScore zeroScores = 47/250 := by
  norm_num [equationScore, zeroScores, normalizePerclos, normalizeFom,
    normalizeDroopy, normalizeReactionTime, normalizeSleep, min_def]

/-- C9 (amended): on every post-calibration call the returned numeric score
equals int(equation_score * 100), independent of which level is finally
emitted; during calibration the score is instead the fixed value 25. -/
theorem c9_score_tracks_equation (s : FatigueState) (ps : PhysioScores)
    (now : ℚ) (h : 30 ≤ s.startupFrames + 1) :
    (calculateFatigueLevel s ps now).2.2.1 =
      pyInt (equationScore ps * 100) := by
  rw [calculateFatigueLevel_postCalib s ps now h]

/-- Witness for C9: the 30th call on a fresh engine with all-zero metrics
returns score 18 = int(0.188 * 100). -/
theorem c9_score_tracks_equation_witness :
    (calculateFatigueLevel { initFatigue 0 with startupFrames := 29 }
      zeroScores 0).2.2.1 = 18 := by
  rw [c9_score_tracks_equation _ _ _ (by norm_num), equationScore_zero]
  norm_num [pyInt]

/-- Counterexample to C9 as stated: the first call on a fresh engine (a
calibration frame) returns the fixed score 25, while int(equation_score*100)
at the same all-zero input is 18. -/
theorem c9_score_counterexample :
    (calculateFatigueLevel (initFatigue 0) zeroScores 0).2.2.1 = 25 ∧
    pyInt (equationScore zeroScores * 100) = 18 ∧ (25 : ℤ) ≠ 18 := by
  refine ⟨?_, ?_, by decide⟩
  · rw [calib_step (initFatigue 0) zeroScores 0 0 rfl (by omega)]
  · rw [equationScore_zero]
    norm_num [pyInt]

/-
C7.
-/

/-- A NORMAL level never touches the history. -/
lemma updateAlertHistory_normal (history : List (Level × ℚ)) (count : Nat)
    (now : ℚ) :
    updateAlertHistory history count Level.NORMAL now = (history, count) := by
  cases hl : history.getLast? with
  | none => simp [updateAlertHistory, hl]
  | some last => simp [updateAlertHistory, hl]

/-- A call during the 2-second cooldown leaves history and count unchanged. -/
lemma updateAlertHistory_blocked (history : List (Level × ℚ)) (count : Nat)
    (level : Level) (now : ℚ) (last : Level × ℚ)
    (hlast : history.getLast? = some last) (hle : now - last.2 ≤ 2) :
    updateAlertHistory history count level now = (history, count) := by
  simp [updateAlertHistory, hlast, decide_eq_false (not_lt.mpr hle)]

/-- A non-NORMAL call with the cooldown passed (or an empty history) appends
the record, prunes entries aged 300 s or more, and refreshes the count. -/
lemma updateAlertHistory_record (history : List (Level × ℚ)) (count : Nat)
    (level : Level) (now : ℚ) (hl : level ≠ Level.NORMAL)
    (hcool : history = [] ∨
      ∃ last, history.getLast? = some last ∧ now - last.2 > 2) :
    updateAlertHistory history count level now =
      (((history ++ [(level, now)]).filter
          fun a => decide (now - a.2 < 300)),
       ((history ++ [(level, now)]).filter
          fun a => decide (now - a.2 < 300)).length) := by
  rcases hcool with rfl | ⟨last, hlast, hgt⟩
  · simp only [updateAlertHistory, List.getLast?_nil]
    rw [if_pos trivial, if_pos hl]
  · simp only [updateAlertHistory, hlast, decide_eq_true hgt]
    rw [if_pos trivial, if_pos hl]

/-- First EARLY FATIGUE record on an empty history. -/
lemma updateAlertHistory_firstEarly (t : ℚ) :
    updateAlertHistory [] 0 Level.EARLY_FATIGUE t =
      ([(Level.EARLY_FATIGUE, t)], 1) := by
  rw [updateAlertHistory_record [] 0 Level.EARLY_FATIGUE t (by decide)
    (Or.inl rfl)]
  simp [sub_self, decide_eq_true (show (0:ℚ) < 300 from by norm_num)]

/-- C7 (amended): a record (level, now) is appended if and only if the level
is non-NORMAL and (the history is empty or more than 2.0 s have elapsed since
the last record); pruning of entries aged 300 s or more and the refresh of
previous_alert_count happen only on such an appending call, while a blocked
or NORMAL call leaves history and count untouched; two EARLY FATIGUE
emissions 0.5 s apart yield one history entry and two emissions 3 s apart
yield two.  (The pipeline calls the update only when the final or the
rule-based level is non-NORMAL, which is observationally equivalent to
calling it every frame, since a NORMAL level never appends.) -/
theorem c7_alert_history (history : List (Level × ℚ)) (count : Nat)
    (level : Level) (now : ℚ) :
    (level = Level.NORMAL →
      updateAlertHistory history count level now = (history, count)) ∧
    (∀ last, history.getLast? = some last → now - last.2 ≤ 2 →
      updateAlertHistory history count level now = (history, count)) ∧
    (level ≠ Level.NORMAL →
      (history = [] ∨
        ∃ last, history.getLast? = some last ∧ now - last.2 > 2) →
      updateAlertHistory history count level now =
        (((history ++ [(level, now)]).filter
            fun a => decide (now - a.2 < 300)),
         ((history ++ [(level, now)]).filter
            fun a => decide (now - a.2 < 300)).length)) ∧
    (∀ t : ℚ,
      runHistory [(Level.EARLY_FATIGUE, t), (Level.EARLY_FATIGUE, t + 1/2)] =
        ([(Level.EARLY_FATIGUE, t)], 1)) ∧
    (∀ t : ℚ,
      runHistory [(Level.EARLY_FATIGUE, t), (Level.EARLY_FATIGUE, t + 3)] =
        ([(Level.EARLY_FATIGUE, t), (Level.EARLY_FATIGUE, t + 3)], 2)) := by
  refine ⟨?_, ?_, ?_, ?_, ?_⟩
  · intro hl
    subst hl
    exact updateAlertHistory_normal history count now
  · intro last hlast hle
    exact updateAlertHistory_blocked history count level now last hlast hle
  · intro hl hcool
    exact updateAlertHistory_record history count level now hl hcool
  · intro t
    rw [runHistory, runHistoryFrom, updateAlertHistory_firstEarly t,
      runHistoryFrom,
      updateAlertHistory_blocked [(Level.EARLY_FATIGUE, t)] 1
        Level.EARLY_FATIGUE (t + 1/2) (Level.EARLY_FATIGUE, t) rfl
        (by rw [add_sub_cancel_left]; norm_num)]
    rfl
  · intro t
    rw [runHistory, runHistoryFrom, updateAlertHistory_firstEarly t,
      runHistoryFrom,
      updateAlertHistory_record [(Level.EARLY_FATIGUE, t)] 1
        Level.EARLY_FATIGUE (t + 3) (by decide)
        (Or.inr ⟨(Level.EARLY_FATIGUE, t), rfl,
          by rw [add_sub_cancel_left]; norm_num⟩)]
    simp [runHistoryFrom, sub_self, add_sub_cancel_left,
      decide_eq_true (show (0:ℚ) < 300 from by norm_num),
      decide_eq_true (show (3:ℚ) < 300 from by norm_num)]

/-- Witness for C7: a NORMAL call at a concrete input leaves the singleton
history unchanged. -/
theorem c7_alert_history_witness :
    updateAlertHistory [(Level.EARLY_FATIGUE, 0)] 1 Level.NORMAL 5 =
      ([(Level.EARLY_FATIGUE, 0)], 1) :=
  (c7_alert_history [(Level.EARLY_FATIGUE, 0)] 1 Level.NORMAL 5).1 rfl

/-- Counterexample to C7 as stated: during the cooldown (1.5 s after the last
record) nothing is pruned or recounted, so an entry aged 300.5 s — older than
the claimed 300 s horizon — survives the call. -/
theorem c7_alert_history_counterexample :
    updateAlertHistory [(Level.EARLY_FATIGUE, 0), (Level.EARLY_FATIGUE, 299)]
      2 Level.EARLY_FATIGUE (601/2) =
      ([(Level.EARLY_FATIGUE, 0), (Level.EARLY_FATIGUE, 299)], 2) ∧
    (601 : ℚ)/2 - 0 > 300 := by
  constructor
  · exact updateAlertHistory_blocked _ _ _ _ (Level.EARLY_FATIGUE, 299) rfl
      (by norm_num)
  · norm_num

/-
C10.
-/

/-- One `_update_alert_history` call preserves the history invariant: all
entries non-NORMAL, every ordered pair of entries more than 2 s apart, every
entry no later than the call time. -/
lemma updateAlertHistory_invariant (history : List (Level × ℚ)) (count : Nat)
    (level : Level) (now : ℚ)
    (hpair : history.Pairwise fun a b => a.2 + 2 < b.2)
    (hmem : ∀ e ∈ history, e.1 ≠ Level.NORMAL)
    (hle : ∀ e ∈ history, e.2 ≤ now) :
    ((updateAlertHistory history count level now).1.Pairwise
      fun a b => a.2 + 2 < b.2) ∧
    (∀ e ∈ (updateAlertHistory history count level now).1,
      e.1 ≠ Level.NORMAL) ∧
    (∀ e ∈ (updateAlertHistory history count level now).1, e.2 ≤ now) := by
  by_cases hlvl : level = Level.NORMAL
  · subst hlvl
    rw [updateAlertHistory_normal]
    exact ⟨hpair, hmem, hle⟩
  cases hl : history.getLast? with
  | none =>
    have hnil : history = [] := List.getLast?_eq_none_iff.mp hl
    subst hnil
    rw [updateAlertHistory_record [] count level now hlvl (Or.inl rfl)]
    refine ⟨?_, ?_, ?_⟩
    · exact List.Pairwise.sublist (List.filter_sublist _)
        (by simp)
    · intro e he
      have : e ∈ ([] : List (Level × ℚ)) ++ [(level, now)] :=
        (List.mem_filter.mp he).1
      simp only [List.nil_append, List.mem_singleton] at this
      rw [this]
      exact hlvl
    · intro e he
      have : e ∈ ([] : List (Level × ℚ)) ++ [(level, now)] :=
        (List.mem_filter.mp he).1
      simp only [List.nil_append, List.mem_singleton] at this
      rw [this]
  | some last =>
    by_cases hcool : now - last.2 > 2
    · rw [updateAlertHistory_record history count level now hlvl
        (Or.inr ⟨last, hl, hcool⟩)]
      obtain ⟨init, hinit⟩ := List.getLast?_eq_some_iff.mp hl
      have hbound : ∀ a ∈ history, a.2 + 2 < now := by
        intro a ha
        rw [hinit] at ha hpair
        rcases List.mem_append.mp ha with ha1 | ha2
        · have := (List.pairwise_append.mp hpair).2.2 a ha1 last
            (List.mem_singleton.mpr rfl)
          linarith
        · rw [List.mem_singleton.mp ha2]
          linarith
      have hpair2 : (history ++ [(level, now)]).Pairwise
          fun a b => a.2 + 2 < b.2 := by
        rw [List.pairwise_append]
        exact ⟨hpair, List.pairwise_singleton _ _,
          fun a ha b hb => by rw [List.mem_singleton.mp hb]; exact hbound a ha⟩
      refine ⟨List.Pairwise.sublist (List.filter_sublist _) hpair2, ?_, ?_⟩
      · intro e he
        rcases List.mem_append.mp (List.mem_filter.mp he).1 with h1 | h2
        · exact hmem e h1
        · rw [List.mem_singleton.mp h2]
          exact hlvl
      · intro e he
        rcases List.mem_append.mp (List.mem_filter.mp he).1 with h1 | h2
        · exact hle e h1
        · rw [List.mem_singleton.mp h2]
    · rw [updateAlertHistory_blocked history count level now last hl
        (by linarith [not_lt.mp hcool])]
      exact ⟨hpair, hmem, hle⟩

/-- Folding `_update_alert_history` over time-sorted calls preserves the
history invariant. -/
lemma runHistoryFrom_invariant (calls : List (Level × ℚ)) :
    ∀ (h : List (Level × ℚ)) (c : Nat),
      (h.Pairwise fun a b => a.2 + 2 < b.2) →
      (∀ e ∈ h, e.1 ≠ Level.NORMAL) →
      (calls.Pairwise fun a b => a.2 ≤ b.2) →
      (∀ e ∈ h, ∀ x ∈ calls, e.2 ≤ x.2) →
      (((runHistoryFrom (h, c) calls).1.Pairwise
          fun a b => a.2 + 2 < b.2) ∧
       ∀ e ∈ (runHistoryFrom (h, c) calls).1, e.1 ≠ Level.NORMAL) := by
  induction calls with
  | nil => exact fun h c hp hm _ _ => ⟨hp, hm⟩
  | cons x rest ih =>
    intro h c hp hm hsorted hbound
    rw [runHistoryFrom]
    obtain ⟨hsx, hsrest⟩ := List.pairwise_cons.mp hsorted
    obtain ⟨hp2, hm2, hb2⟩ := updateAlertHistory_invariant h c x.1 x.2 hp hm
      (fun e he => hbound e he x (List.mem_cons_self x rest))
    exact ih _ _ hp2 hm2 hsrest
      (fun e he y hy => le_trans (hb2 e he) (hsx y hy))

/-- C10: after any sequence of `_update_alert_history` calls with
non-decreasing wall-clock times, starting from the fresh engine's empty
history, every entry has a non-NORMAL level, the entries' timestamps are
strictly increasing, and every two adjacent entries are more than 2.0 s
apart. -/
theorem c10_history_invariant (calls : List (Level × ℚ))
    (hmono : calls.Pairwise fun a b => a.2 ≤ b.2) :
    (∀ e ∈ (runHistory calls).1, e.1 ≠ Level.NORMAL) ∧
    ((runHistory calls).1.Pairwise fun a b => a.2 < b.2) ∧
    List.Chain' (fun a b => b.2 - a.2 > 2) (runHistory calls).1 := by
  obtain ⟨hp, hm⟩ := runHistoryFrom_invariant calls [] 0
    (List.Pairwise.nil) (by simp) hmono (by simp)
  exact ⟨hm, hp.imp (fun hab => by linarith),
    List.Chain'.imp (fun a b hab => by linarith) hp.chain'⟩

/-- Witness for C10 at a concrete call sequence: the single entry recorded
from one EARLY FATIGUE call has a non-NORMAL level. -/
theorem c10_history_invariant_witness :
    (Level.EARLY_FATIGUE, (0 : ℚ)).1 ≠ Level.NORMAL := by
  have hrun : runHistory [(Level.EARLY_FATIGUE, 0)] =
      ([(Level.EARLY_FATIGUE, 0)], 1) := by
    rw [runHistory, runHistoryFrom, updateAlertHistory_firstEarly 0,
      runHistoryFrom]
  exact (c10_history_invariant [(Level.EARLY_FATIGUE, 0)] (by simp)).1
    (Level.EARLY_FATIGUE, 0) (by rw [hrun]; simp)

/-
C6.
-/

/-- No rising edge inside a run of false frames, whatever precedes it. -/
lemma risingEdges_replicate_false (n : ℕ) (prev : Bool) :
    risingEdges (List.replicate n false) prev = 0 := by
  induction n generalizing prev with
  | zero => rfl
  | succ m ih => simp [List.replicate_succ, risingEdges, ih]

/-- Rising edges split across an append, threading the last seen frame. -/
lemma risingEdges_append (xs ys : List Bool) (prev : Bool) :
    risingEdges (xs ++ ys) prev =
      risingEdges xs prev + risingEdges ys (xs.getLastD prev) := by
  induction xs generalizing prev with
  | nil => simp [risingEdges]
  | cons x rest ih =>
    simp only [List.cons_append, risingEdges, List.getLastD_cons,
      List.append_eq, ih x]
    omega

/-- A run of true frames contributes one rising edge after an open frame and
none after a closed one. -/
lemma risingEdges_replicate_true (n : ℕ) (hn : 1 ≤ n) (prev : Bool) :
    risingEdges (List.replicate n true) prev = if prev then 0 else 1 := by
  have htrue : ∀ m : ℕ, risingEdges (List.replicate m true) true = 0 := by
    intro m
    induction m with
    | zero => rfl
    | succ k ih => simp [List.replicate_succ, risingEdges, ih]
  obtain ⟨m, rfl⟩ : ∃ m, n = m + 1 := ⟨n - 1, by omega⟩
  simp [List.replicate_succ, risingEdges, htrue]
  cases prev <;> simp

/-- The last frame of a non-empty run of true frames is true. -/
lemma getLastD_replicate_true (n : ℕ) (hn : 1 ≤ n) (d : Bool) :
    (List.replicate n true).getLastD d = true := by
  induction n generalizing d with
  | zero => omega
  | succ m ih =>
    rw [List.replicate_succ, List.getLastD_cons]
    cases m with
    | zero => rfl
    | succ k => exact ih (by omega) true

/-- The last frame of a (possibly empty) run of false frames after a false
frame is false. -/
lemma getLastD_replicate_false (n : ℕ) :
    (List.replicate n false).getLastD false = false := by
  induction n with
  | zero => rfl
  | succ m ih =>
    rw [List.replicate_succ, List.getLastD_cons]
    cases m with
    | zero => rfl
    | succ k => exact ih

/-- C6: on a yawn window of at least 30 frames consisting of a single
unbroken run of true frames (surrounded by open-mouth frames), `fom` counts
exactly one event: it equals 60 / max(window_frames / frame_rate, 10.0),
regardless of the run's length; and on any window of fewer than 30 frames
`fom` is 0. -/
theorem c6_fom_single_run (frameRate : ℤ) (a b c : ℕ) (_hfr : 0 < frameRate)
    (hb : 1 ≤ b) (hlen : 30 ≤ a + b + c) :
    calculateFom frameRate
      (List.replicate a false ++ List.replicate b true ++
        List.replicate c false) =
      60 / max (((a + b + c : ℕ) : ℚ) / (frameRate : ℚ)) 10 ∧
    ∀ seq : List Bool, seq.length < 30 → calculateFom frameRate seq = 0 := by
  constructor
  · have hxlen : (List.replicate a false ++ List.replicate b true ++
        List.replicate c false).length = a + b + c := by
      simp only [List.length_append, List.length_replicate]
    have hedges : risingEdges
        (List.replicate a false ++ List.replicate b true ++
          List.replicate c false) false = 1 := by
      rw [List.append_assoc, risingEdges_append, risingEdges_replicate_false,
        getLastD_replicate_false, risingEdges_append,
        risingEdges_replicate_true b hb false,
        getLastD_replicate_true b hb false, risingEdges_replicate_false]
      simp
    rw [calculateFom, if_neg (by omega), hxlen, hedges]
    rw [Nat.cast_one, one_div_mul_eq_div]
  · intro seq hseq
    rw [calculateFom, if_pos hseq]

/-- Witness for C6: a 30-frame window that is entirely one yawn yields
fom = 60 / max(1, 10) = 6 events per minute. -/
theorem c6_fom_single_run_witness :
    calculateFom 30
      (List.replicate 0 false ++ List.replicate 30 true ++
        List.replicate 0 false) =
      60 / max (((0 + 30 + 0 : ℕ) : ℚ) / ((30 : ℤ) : ℚ)) 10 :=
  (c6_fom_single_run 30 0 30 0 (by norm_num) (by norm_num) (by norm_num)).1

/-
C8.
-/

/-- The state built by `PhysioScore.__init__(0)`: construction does succeed
for a zero frame rate. -/
def physioZeroState : PhysioState :=
  { frameRate := 0, windowFrames := 0, eyeStates := [], yawnStates := [],
    droopyEyelidsStates := [], droopyFaceStates := [],
    consecutiveEyeClosed := 0, consecutiveDroopyFace := 0 }

/-- `runUpdates` never changes the frame rate. -/
lemma runUpdates_frameRate (updates : List (Bool × Bool × Bool × Bool)) :
    ∀ s : PhysioState, (runUpdates s updates).frameRate = s.frameRate := by
  induction updates with
  | nil => intro s; rfl
  | cons u rest ih =>
    intro s
    rw [runUpdates, ih]
    rfl

/-- C8 (amended): a negative frame rate fails at construction (the deques
reject a negative maxlen), but a zero frame rate constructs successfully and
only fails later, with a division by zero at the first
`get_continuous_eye_closure`; for every positive frame rate construction
succeeds and the continuous-closure getter never errors, whatever vision
updates are ingested. -/
theorem c8_config_fail_fast (frameRate : ℤ) :
    (frameRate < 0 → physioInit frameRate = none) ∧
    (frameRate = 0 → physioInit frameRate = some physioZeroState ∧
      getContinuousEyeClosure physioZeroState = none) ∧
    (0 < frameRate → ∀ s0, physioInit frameRate = some s0 →
      ∀ updates, getContinuousEyeClosure (runUpdates s0 updates) ≠ none) := by
  refine ⟨?_, ?_, ?_⟩
  · intro hneg
    rw [physioInit, if_pos (by nlinarith)]
  · intro hzero
    subst hzero
    exact ⟨rfl, rfl⟩
  · intro hpos s0 hs0 updates
    rw [physioInit, if_neg (by nlinarith)] at hs0
    have hfr : s0.frameRate = frameRate := by
      rw [← Option.some_inj.mp hs0]
    rw [getContinuousEyeClosure, runUpdates_frameRate, hfr,
      if_neg (by omega)]
    exact Option.some_ne_none _

/-- Witness for C8: construction with frame rate −1 fails, with frame rate 0
it succeeds and the first continuous-closure read errors, and with the
default frame rate 30 it succeeds with a never-failing getter. -/
theorem c8_config_fail_fast_witness :
    physioInit (-1) = none ∧
    (physioInit 0 = some physioZeroState ∧
      getContinuousEyeClosure physioZeroState = none) :=
  ⟨(c8_config_fail_fast (-1)).1 (by norm_num),
   (c8_config_fail_fast 0).2.1 rfl⟩

/-- Counterexample to C8 as stated: a zero (hence non-positive) frame rate
does not fail fast — `PhysioScore.__init__(0)` succeeds, and the error
surfaces only at the first `get_continuous_eye_closure`, as a division by
zero. -/
theorem c8_config_counterexample :
    physioInit 0 = some physioZeroState ∧
    getContinuousEyeClosure physioZeroState = none :=
  ⟨rfl, rfl⟩

end Pearl
